import Mathlib

/-!
Shallow embedding of the django-template-ast front end (lexer, token model,
parser, AST) for verification of the specification's claims.

Conventions of the embedding:
* Source text and lexemes are represented as `List Char`.  The Rust code mixes
  byte indices (`self.current`, string slicing) with char counts
  (`lexeme.chars().count()`); on ASCII input — which covers every input the
  claims mention — the two coincide, and the embedding uses uniform char
  indexing.
* The Rust lexer accesses characters through `item_at`, which returns the NUL
  character for any index past the end of the source; `charAt` mirrors this.
* `Lexer::tokenize` is a `while !self.is_at_end()` loop.  Each iteration either
  consumes at least one character or consumes zero characters and repeats the
  identical state forever (a genuine divergence of the Rust code, reachable
  when the source itself contains a NUL character).  The embedding runs the
  loop on `source.length + 1` fuel and reports the zero-progress case as
  `LexResult.diverge`; on every terminating input the fuel is not exhausted,
  so `ok`/`err` results agree exactly with the Rust loop.
* Fallible functions return `Except`; state-mutating parser methods are
  state-passing functions `Parser → result × Parser`, so that (as in Rust,
  where errors are ordinary values) partial state updates made before an error
  are kept.
-/

/-- Token kinds, from the `TokenType` enum in src/src/token.rs.  Note that the
enum has no variants for semicolon, parentheses or square brackets. -/
inductive TokenType where
  | LeftAngle
  | RightAngle
  | Comma
  | Dot
  | Dash
  | Plus
  | Colon
  | Slash
  | Bang
  | Equal
  | Pipe
  | Percent
  | SingleQuote
  | DoubleQuote
  | DoubleLeftBrace
  | DoubleRightBrace
  | LeftBracePercent
  | PercentRightBrace
  | LeftBraceHash
  | HashRightBrace
  | BangEqual
  | DoubleEqual
  | LeftAngleEqual
  | RightAngleEqual
  | LeftAngleBangDashDash
  | DashDashRightAngle
  | SlashRightAngle
  | DoubleSlash
  | SlashStar
  | StarSlash
  | Whitespace
  | Text
  | Eof
deriving DecidableEq, Repr

/-- Errors of the token layer, from `TokenError` in src/src/error.rs. -/
inductive TokenError where
  | UnexpectedCharacter (character : Char)
  | NoTokenMatch
  | UnexpectedEndOfInput
  | DynamicTokenSize
deriving DecidableEq, Repr

/-- Errors of the lexer, from `LexerError` in src/src/error.rs. -/
inductive LexerError where
  | EmptyToken (line : Nat)
  | UnexpectedCharacter (character : Char) (line : Nat)
  | EmptySource
  | AtBeginningOfSource
  | AtEndOfSource
  | InvalidCharacterAccess
  | UnexpectedTokenType (tokenType : TokenType)
  | TokenErr (e : TokenError)
deriving DecidableEq, Repr

/-- A token, from the `Token` struct in src/src/token.rs: kind, owned lexeme,
1-based line number. -/
structure Token where
  token_type : TokenType
  lexeme : List Char
  line : Nat
deriving DecidableEq, Repr

/-- The NUL character that `Lexer::item_at` returns past the end of the
source. -/
def nulChar : Char := Char.ofNat 0

/-- The single-quote character (code 39). -/
def squoteChar : Char := Char.ofNat 39

/-- The double-quote character (code 34). -/
def dquoteChar : Char := Char.ofNat 34

/-- Rust `char::is_whitespace`: the Unicode White_Space property, which is the
finite set of code points listed here. -/
def isWhitespaceChar (c : Char) : Bool :=
  c = ' ' || c = Char.ofNat 9 || c = Char.ofNat 10 || c = Char.ofNat 11 ||
  c = Char.ofNat 12 || c = Char.ofNat 13 || c = Char.ofNat 0x85 ||
  c = Char.ofNat 0xA0 || c = Char.ofNat 0x1680 ||
  (0x2000 ≤ c.toNat && c.toNat ≤ 0x200A) || c = Char.ofNat 0x2028 ||
  c = Char.ofNat 0x2029 || c = Char.ofNat 0x202F || c = Char.ofNat 0x205F ||
  c = Char.ofNat 0x3000

/-- Rust `char::is_alphabetic` (Unicode Alphabetic).  The lexer consults it
only in `left_angle`, for the character after `<`.  We embed the ASCII
fragment, on which it agrees with Rust; no claim exercises non-ASCII letters
there, and the theorems quantified over all sources do not depend on this
predicate's value. -/
def isAlphabeticChar (c : Char) : Bool := c.isAlpha

/-- Character access of the lexer (`Lexer::item_at` via `peek_at`): the
character at offset `i` from the cursor, or NUL past the end of the source.
The lexer's `rest` argument below is always the suffix of the source from the
cursor, and `tokenize` only ever peeks at offsets 0 through 3. -/
def charAt (rest : List Char) (i : Nat) : Char := rest.getD i nulChar

/-- From `Lexer::single_char` in src/src/lexer.rs. -/
def lexSingleChar (c : Char) (line : Nat) : Except LexerError TokenType :=
  if c = ',' then .ok .Comma
  else if c = '.' then .ok .Dot
  else if c = '+' then .ok .Plus
  else if c = ':' then .ok .Colon
  else if c = '|' then .ok .Pipe
  else if c = squoteChar then .ok .SingleQuote
  else if c = dquoteChar then .ok .DoubleQuote
  else if c = '/' then .ok .Slash
  else if c = '%' then .ok .Percent
  else .error (.UnexpectedCharacter c line)

/-- From `Lexer::left_brace`. -/
def lexLeftBrace (rest : List Char) : Except LexerError TokenType :=
  if charAt rest 1 = '{' then .ok .DoubleLeftBrace
  else if charAt rest 1 = '%' then .ok .LeftBracePercent
  else if charAt rest 1 = '#' then .ok .LeftBraceHash
  else .ok .Text

/-- From `Lexer::right_brace`. -/
def lexRightBrace (rest : List Char) : Except LexerError TokenType :=
  if charAt rest 1 = '}' then .ok .DoubleRightBrace
  else .ok .Text

/-- From `Lexer::percent`. -/
def lexPercent (rest : List Char) : Except LexerError TokenType :=
  if charAt rest 1 = '}' then .ok .PercentRightBrace
  else .ok .Percent

/-- From `Lexer::hash`. -/
def lexHash (rest : List Char) : Except LexerError TokenType :=
  if charAt rest 1 = '}' then .ok .HashRightBrace
  else .ok .Text

/-- From `Lexer::bang`. -/
def lexBang (rest : List Char) : Except LexerError TokenType :=
  if charAt rest 1 = '=' then .ok .BangEqual
  else .ok .Bang

/-- From `Lexer::equal`. -/
def lexEqual (rest : List Char) : Except LexerError TokenType :=
  if charAt rest 1 = '=' then .ok .DoubleEqual
  else .ok .Equal

/-- From `Lexer::left_angle`: a three-character lookahead; the fallback to
`Text` (not `LeftAngle`) when the next character is neither `=`, the start of
`!--`, whitespace, alphabetic nor end-of-input mirrors the match arms in
src/src/lexer.rs lines 126-136. -/
def lexLeftAngle (rest : List Char) : Except LexerError TokenType :=
  if charAt rest 1 = '=' then .ok .LeftAngleEqual
  else if charAt rest 1 = '!' ∧ charAt rest 2 = '-' ∧ charAt rest 3 = '-' then
    .ok .LeftAngleBangDashDash
  else if isWhitespaceChar (charAt rest 1) ∨ isAlphabeticChar (charAt rest 1) ∨
      charAt rest 1 = nulChar then
    .ok .LeftAngle
  else .ok .Text

/-- From `Lexer::right_angle`. -/
def lexRightAngle (rest : List Char) : Except LexerError TokenType :=
  if charAt rest 1 = '=' then .ok .RightAngleEqual
  else .ok .RightAngle

/-- From `Lexer::slash`. -/
def lexSlash (rest : List Char) : Except LexerError TokenType :=
  if charAt rest 1 = '>' then .ok .SlashRightAngle
  else if charAt rest 1 = '/' then .ok .DoubleSlash
  else if charAt rest 1 = '*' then .ok .SlashStar
  else .ok .Slash

/-- From `Lexer::dash`. -/
def lexDash (rest : List Char) : Except LexerError TokenType :=
  if charAt rest 1 = '-' ∧ charAt rest 2 = '>' then .ok .DashDashRightAngle
  else if charAt rest 1 = '-' then .ok .Text
  else .ok .Dash

/-- From `Lexer::star`. -/
def lexStar (rest : List Char) : Except LexerError TokenType :=
  if charAt rest 1 = '/' then .ok .StarSlash
  else .ok .Text

/-- The dispatch in `Lexer::next_token` (src/src/lexer.rs lines 31-48), keyed
on the character at the cursor (the Rust binding `c = self.peek()?` is written
out as `charAt rest 0` in every arm). -/
def nextTokenType (rest : List Char) (line : Nat) : Except LexerError TokenType :=
  if charAt rest 0 = ',' ∨ charAt rest 0 = '.' ∨ charAt rest 0 = '+' ∨
      charAt rest 0 = ':' ∨ charAt rest 0 = '|' ∨ charAt rest 0 = squoteChar ∨
      charAt rest 0 = dquoteChar then
    lexSingleChar (charAt rest 0) line
  else if charAt rest 0 = '{' then lexLeftBrace rest
  else if charAt rest 0 = '}' then lexRightBrace rest
  else if charAt rest 0 = '%' then lexPercent rest
  else if charAt rest 0 = '#' then lexHash rest
  else if charAt rest 0 = '!' then lexBang rest
  else if charAt rest 0 = '=' then lexEqual rest
  else if charAt rest 0 = '<' then lexLeftAngle rest
  else if charAt rest 0 = '>' then lexRightAngle rest
  else if charAt rest 0 = '/' then lexSlash rest
  else if charAt rest 0 = '-' then lexDash rest
  else if charAt rest 0 = '*' then lexStar rest
  else if isWhitespaceChar (charAt rest 0) then .ok .Whitespace
  else .ok .Text

/-- The `Ok` cases of the lexer revision's `TokenType::size` used by
`Lexer::extract_lexeme`: the fixed size of a token kind in characters, `none`
for the dynamically sized `Whitespace` and `Text` kinds. -/
def sizeFixed : TokenType → Option Nat
  | .Eof => some 0
  | .LeftAngle | .RightAngle | .Comma | .Dot | .Dash | .Plus | .Colon
  | .Slash | .Bang | .Equal | .Pipe | .Percent | .SingleQuote
  | .DoubleQuote => some 1
  | .DoubleLeftBrace | .DoubleRightBrace | .LeftBracePercent
  | .PercentRightBrace | .LeftBraceHash | .HashRightBrace | .BangEqual
  | .DoubleEqual | .LeftAngleEqual | .RightAngleEqual | .SlashRightAngle
  | .DoubleSlash | .SlashStar | .StarSlash => some 2
  | .DashDashRightAngle => some 3
  | .LeftAngleBangDashDash => some 4
  | .Whitespace => none
  | .Text => none

/-- From `Lexer::extract_lexeme` (src/src/lexer.rs lines 183-206): fixed-size
kinds slice their size off the remaining source (capped at its length);
`Whitespace` takes the run of whitespace characters, `Text` the run of
non-whitespace characters, each stopping at a NUL. -/
def extractLexeme (rest : List Char) (tt : TokenType) :
    Except LexerError (List Char) :=
  match sizeFixed tt with
  | some n => .ok (rest.take n)
  | none =>
    match tt with
    | .Whitespace => .ok (rest.takeWhile fun c => isWhitespaceChar c && c != nulChar)
    | .Text => .ok (rest.takeWhile fun c => !isWhitespaceChar c && c != nulChar)
    | _ => .error (.UnexpectedTokenType tt)

/-- From `Token::size`: the lexeme's length in characters. -/
def Token.size (t : Token) : Nat := t.lexeme.length

/-- From `Token::lines`: for a `Whitespace` token, the number of newline or
carriage-return characters in the lexeme (each counted separately); zero for
every other kind. -/
def Token.lines (t : Token) : Nat :=
  if t.token_type = .Whitespace then
    (t.lexeme.filter fun c => c = Char.ofNat 10 || c = Char.ofNat 13).length
  else 0

/-- From `Token::is_throwaway`: true exactly for `Whitespace` tokens.  This
helper is defined in src/src/token.rs but never called anywhere in src/. -/
def Token.is_throwaway (t : Token) : Bool := t.token_type = .Whitespace

/-- From `Token::eof`: the terminal token, with an empty lexeme. -/
def Token.eof (line : Nat) : Token := ⟨.Eof, [], line⟩

/-- From `TokenStream::add_token` (src/src/token.rs lines 321-323): pushes the
token unconditionally — no kind is filtered out. -/
def addToken (ts : List Token) (t : Token) : List Token := ts ++ [t]

/-- From `TokenStream::finalize`: appends the `Eof` token stamped with the
given line. -/
def finalizeStream (ts : List Token) (lastLine : Nat) : List Token :=
  addToken ts (Token.eof lastLine)

/-- From `Lexer::next_token`: dispatch on the current character, then extract
the lexeme and stamp the current line. -/
def nextToken (rest : List Char) (line : Nat) : Except LexerError Token :=
  match nextTokenType rest line with
  | .error e => .error e
  | .ok tt =>
    match extractLexeme rest tt with
    | .error e => .error e
    | .ok lex => .ok ⟨tt, lex, line⟩

/-- Result of running the lexer: success, a lexer error, or divergence of the
Rust `while` loop (zero-progress iteration, see the header comment). -/
inductive LexResult (α : Type) where
  | ok (value : α)
  | err (e : LexerError)
  | diverge
deriving DecidableEq, Repr

/-- The loop of `Lexer::tokenize`: while the cursor has not reached the end,
scan one token, push it with `add_token`, and advance the cursor by the
token's size and the line counter by its line count; then finalize. -/
def tokenizeLoop : Nat → List Char → Nat → List Token → LexResult (List Token × Nat)
  | 0, _, _, _ => .diverge
  | fuel + 1, rest, line, acc =>
    if rest.isEmpty then .ok (finalizeStream acc line, line)
    else
      match nextToken rest line with
      | .error e => .err e
      | .ok tok => tokenizeLoop fuel (rest.drop tok.size) (line + tok.lines) (addToken acc tok)

/-- `Lexer::tokenize` together with the lexer's final line number. -/
def tokenizeFull (source : List Char) : LexResult (List Token × Nat) :=
  tokenizeLoop (source.length + 1) source 1 []

/-- `Lexer::tokenize` (src/src/lexer.rs lines 21-29): the finalized token
stream. -/
def tokenize (source : List Char) : LexResult (List Token) :=
  match tokenizeFull source with
  | .ok (ts, _) => .ok ts
  | .err e => .err e
  | .diverge => .diverge

/-- Attribute values, from `AttributeValue` in src/src/ast.rs. -/
inductive AttributeValue where
  | Value (s : List Char)
  | Boolean

/-- AST nodes, from the `Node` enum in src/src/ast.rs. -/
inductive Node where
  | HTMLElement (tag : List Char) (attributes : List (List Char × AttributeValue))
      (children : List Node)
  | HTMLVoidElement (tag : List Char) (attributes : List (List Char × AttributeValue))
  | HTMLComment (content : List Char)
  | HTMLDoctype (doctype : List Char)
  | Script (attributes : List (List Char × AttributeValue)) (content : List Char)
  | Style (attributes : List (List Char × AttributeValue)) (content : List Char)
  | DjangoVariable (content : List Char)
  | DjangoBlock (name : List Char) (arguments : List (List Char))
      (children : List Node)
  | DjangoComment (content : List Char)
  | Text (content : List Char)

/-- Node construction errors.  `NoTagName` and `EmptyDjangoBlock` appear in
`NodeError` in src/src/error.rs; `NoBlockName` is the variant that
`Node::new_django_block` in src/src/ast.rs returns for an empty name. -/
inductive NodeError where
  | NoTagName
  | NoBlockName
  | EmptyDjangoBlock
deriving DecidableEq, Repr

/-- Parser errors, from `ParserError` in src/src/error.rs (`NodeErr` is the
`#[from] NodeError` conversion). -/
inductive ParserError where
  | EmptyTokenStream
  | AtBeginningOfStream
  | AtEndOfStream
  | InvalidTokenAccess
  | ExpectedTokenType (found : Token) (expected : TokenType)
  | UnexpectedToken (found : Token)
  | NodeErr (e : NodeError)
deriving DecidableEq, Repr

/-- From `Node::new_html_element`: rejects an empty tag, defaults missing
attributes and children to empty lists. -/
def newHtmlElement (tag : List Char)
    (attributes : Option (List (List Char × AttributeValue)))
    (children : Option (List Node)) : Except NodeError Node :=
  if tag.isEmpty then .error .NoTagName
  else .ok (.HTMLElement tag (attributes.getD []) (children.getD []))

/-- From `Node::new_html_void_element`. -/
def newHtmlVoidElement (tag : List Char)
    (attributes : Option (List (List Char × AttributeValue))) :
    Except NodeError Node :=
  if tag.isEmpty then .error .NoTagName
  else .ok (.HTMLVoidElement tag (attributes.getD []))

/-- From `Node::new_html_comment`. -/
def newHtmlComment (content : List Char) : Except NodeError Node :=
  .ok (.HTMLComment content)

/-- From `Node::new_html_doctype`. -/
def newHtmlDoctype (doctype : List Char) : Except NodeError Node :=
  .ok (.HTMLDoctype doctype)

/-- From `Node::new_django_variable`. -/
def newDjangoVariable (content : List Char) : Except NodeError Node :=
  .ok (.DjangoVariable content)

/-- From `Node::new_django_block`: rejects an empty name, defaults missing
arguments and children to empty lists. -/
def newDjangoBlock (name : List Char) (arguments : Option (List (List Char)))
    (children : Option (List Node)) : Except NodeError Node :=
  if name.isEmpty then .error .NoBlockName
  else .ok (.DjangoBlock name (arguments.getD []) (children.getD []))

/-- From `Node::new_django_comment`. -/
def newDjangoComment (content : List Char) : Except NodeError Node :=
  .ok (.DjangoComment content)

/-- From `Node::new_text`. -/
def newText (content : List Char) : Except NodeError Node :=
  .ok (.Text content)

/-- The AST, from `Ast` in src/src/ast.rs: the ordered list of root nodes. -/
structure Ast where
  nodes : List Node

/-- Modelled from the spec: src/src/parser.rs imports a `TokenVecToString`
trait from the token module and the productions call `.to_string()` on the
collected `Vec<Token>`, but the trait's implementation is not under src/.
Section 4.3 of the spec says the collected tokens are re-joined with their
text "re-separated by single spaces", and the parser unit tests in
src/src/parser.rs show the tokens `Text "Hello", Text "World"` joining to
`"Hello World"`: the lexemes joined with one space between consecutive
tokens. -/
def tokenVecToString (ts : List Token) : List Char :=
  List.intercalate [' '] (ts.map fun t => t.lexeme)

/-- Modelled from the spec: `django_block` calls `token.to_string()` on each
argument token (`Display` for `Token` is not under src/).  The spec says the
remaining collected tokens are "each rendered back to text", and the parser
unit test shows the token `Text "hello='world'"` rendering to its lexeme. -/
def tokenToString (t : Token) : List Char := t.lexeme

/-- Parser state, from the `Parser` struct in src/src/parser.rs: the token
stream and a cursor. -/
structure Parser where
  tokens : List Token
  current : Nat

/-- From `Parser::is_at_end`: the cursor is at (or past) the last token. -/
def Parser.isAtEnd (p : Parser) : Bool := p.tokens.length ≤ p.current + 1

/-- Rust `as usize` conversion of a (possibly negative) `isize` index:
two's-complement wrap-around at 64 bits. -/
def usizeWrap (i : Int) : Nat := (i.emod (2 ^ 64)).toNat

/-- From `Parser::item_at`: the token at an absolute index, or the precise
out-of-range error. -/
def Parser.itemAt (p : Parser) (index : Nat) : Except ParserError Token :=
  match p.tokens[index]? with
  | some t => .ok t
  | none =>
    if p.tokens.isEmpty then .error .EmptyTokenStream
    else if index < p.current then .error .AtBeginningOfStream
    else if p.tokens.length ≤ index then .error .AtEndOfStream
    else .error .InvalidTokenAccess

/-- From `Parser::peek_at`: index the stream at cursor plus offset (the Rust
`isize`-to-`usize` cast wraps). -/
def Parser.peekAt (p : Parser) (offset : Int) : Except ParserError Token :=
  p.itemAt (usizeWrap ((p.current : Int) + offset))

/-- From `Parser::peek`. -/
def Parser.peek (p : Parser) : Except ParserError Token := p.peekAt 0

/-- From `Parser::peek_next`. -/
def Parser.peekNext (p : Parser) : Except ParserError Token := p.peekAt 1

/-- From `Parser::peek_previous`. -/
def Parser.peekPrevious (p : Parser) : Except ParserError Token := p.peekAt (-1)

/-- From `Parser::advance`: error at the end of the stream, otherwise move the
cursor forward and return the token just passed. -/
def Parser.advance (p : Parser) : Except ParserError Token × Parser :=
  if p.isAtEnd then (.error .AtEndOfStream, p)
  else
    let p' : Parser := { p with current := p.current + 1 }
    (p'.peekPrevious, p')

/-- From `Parser::consume`: require the current token to have the given kind,
advance past it, and return it. -/
def Parser.consume (p : Parser) (tt : TokenType) : Except ParserError Token × Parser :=
  match p.peek with
  | .error e => (.error e, p)
  | .ok t =>
    if t.token_type ≠ tt then (.error (.ExpectedTokenType t tt), p)
    else
      match p.advance with
      | (.error e, p') => (.error e, p')
      | (.ok _, p') => (.ok t, p')

/-- The loop of `Parser::consume_until`, on fuel.  Every iteration advances
the cursor, so with fuel `tokens.length + 1` (as passed by `consumeUntil`) the
zero-fuel case is unreachable. -/
def Parser.consumeUntilAux : Nat → Parser → TokenType → List Token →
    Except ParserError (List Token) × Parser
  | 0, p, _, acc => (.ok acc, p)
  | fuel + 1, p, endType, acc =>
    if p.isAtEnd then (.ok acc, p)
    else
      match p.peek with
      | .error e => (.error e, p)
      | .ok t =>
        if t.token_type = endType then (.ok acc, p)
        else
          match p.advance with
          | (.error e, p') => (.error e, p')
          | (.ok tok, p') => Parser.consumeUntilAux fuel p' endType (acc ++ [tok])

/-- From `Parser::consume_until`: collect tokens until the end of the stream
or a token of the given kind (which is not consumed). -/
def Parser.consumeUntil (p : Parser) (endType : TokenType) :
    Except ParserError (List Token) × Parser :=
  Parser.consumeUntilAux (p.tokens.length + 1) p endType []

/-- From `Parser::parse_attribute_value`: a quoted value (tokens between
matching quotes, lexemes concatenated with no separator, mirroring
`collect::<String>()`) or a single bare `Text` token. -/
def Parser.parseAttributeValue (p : Parser) :
    Except ParserError (List Char) × Parser :=
  match p.peek with
  | .error e => (.error e, p)
  | .ok t =>
    if t.token_type = .SingleQuote ∨ t.token_type = .DoubleQuote then
      match p.advance with
      | (.error e, p) => (.error e, p)
      | (.ok quote, p) =>
        match p.consumeUntil quote.token_type with
        | (.error e, p) => (.error e, p)
        | (.ok value, p) =>
          match p.consume quote.token_type with
          | (.error e, p) => (.error e, p)
          | (.ok _, p) => (.ok (value.foldl (fun acc t => acc ++ t.lexeme) []), p)
    else
      match p.consume .Text with
      | (.error e, p) => (.error e, p)
      | (.ok t, p) => (.ok t.lexeme, p)

/-- The loop of `Parser::parse_attributes`, on fuel (every iteration consumes
a `Text` token, so the zero-fuel case is unreachable at fuel
`tokens.length + 1`). -/
def Parser.parseAttributesAux : Nat → Parser → List (List Char × AttributeValue) →
    Except ParserError (List (List Char × AttributeValue)) × Parser
  | 0, p, acc => (.ok acc, p)
  | fuel + 1, p, acc =>
    match p.peek with
    | .error e => (.error e, p)
    | .ok t =>
      if t.token_type = .Text then
        match p.consume .Text with
        | (.error e, p) => (.error e, p)
        | (.ok nameTok, p) =>
          match p.peek with
          | .error e => (.error e, p)
          | .ok t2 =>
            if t2.token_type = .Equal then
              match p.consume .Equal with
              | (.error e, p) => (.error e, p)
              | (.ok _, p) =>
                match p.parseAttributeValue with
                | (.error e, p) => (.error e, p)
                | (.ok v, p) =>
                  Parser.parseAttributesAux fuel p (acc ++ [(nameTok.lexeme, .Value v)])
            else Parser.parseAttributesAux fuel p (acc ++ [(nameTok.lexeme, .Boolean)])
      else (.ok acc, p)

/-- From `Parser::parse_attributes`. -/
def Parser.parseAttributes (p : Parser) :
    Except ParserError (List (List Char × AttributeValue)) × Parser :=
  Parser.parseAttributesAux (p.tokens.length + 1) p []

/-- From `Parser::html_tag` (src/src/parser.rs lines 47-60). -/
def Parser.htmlTag (p : Parser) : Except ParserError Node × Parser :=
  match p.consume .LeftAngle with
  | (.error e, p) => (.error e, p)
  | (.ok _, p) =>
    match p.consume .Text with
    | (.error e, p) => (.error e, p)
    | (.ok tagTok, p) =>
      match p.parseAttributes with
      | (.error e, p) => (.error e, p)
      | (.ok attrs, p) =>
        match p.peek with
        | .error e => (.error e, p)
        | .ok t =>
          if t.token_type = .SlashRightAngle then
            match p.consume .SlashRightAngle with
            | (.error e, p) => (.error e, p)
            | (.ok _, p) =>
              match newHtmlVoidElement tagTok.lexeme (some attrs) with
              | .error e => (.error (.NodeErr e), p)
              | .ok n => (.ok n, p)
          else
            match p.consume .RightAngle with
            | (.error e, p) => (.error e, p)
            | (.ok _, p) =>
              match newHtmlElement tagTok.lexeme (some attrs) none with
              | .error e => (.error (.NodeErr e), p)
              | .ok n => (.ok n, p)

/-- From `Parser::html_comment` (src/src/parser.rs lines 89-95). -/
def Parser.htmlComment (p : Parser) : Except ParserError Node × Parser :=
  match p.consume .LeftAngleBangDashDash with
  | (.error e, p) => (.error e, p)
  | (.ok _, p) =>
    match p.consumeUntil .DashDashRightAngle with
    | (.error e, p) => (.error e, p)
    | (.ok content, p) =>
      match newHtmlComment (tokenVecToString content) with
      | .error e => (.error (.NodeErr e), p)
      | .ok n =>
        match p.consume .DashDashRightAngle with
        | (.error e, p) => (.error e, p)
        | (.ok _, p) => (.ok n, p)

/-- From `Parser::html_doctype` (src/src/parser.rs lines 97-105). -/
def Parser.htmlDoctype (p : Parser) : Except ParserError Node × Parser :=
  match p.consume .LeftAngle with
  | (.error e, p) => (.error e, p)
  | (.ok _, p) =>
    match p.consume .Bang with
    | (.error e, p) => (.error e, p)
    | (.ok _, p) =>
      match p.consume .Text with
      | (.error e, p) => (.error e, p)
      | (.ok _, p) =>
        match p.consumeUntil .RightAngle with
        | (.error e, p) => (.error e, p)
        | (.ok content, p) =>
          match newHtmlDoctype (tokenVecToString content) with
          | .error e => (.error (.NodeErr e), p)
          | .ok n =>
            match p.consume .RightAngle with
            | (.error e, p) => (.error e, p)
            | (.ok _, p) => (.ok n, p)

/-- From `Parser::django_block` (src/src/parser.rs lines 107-126): the first
collected token's lexeme is the name, the remaining collected tokens (rendered
to text) are the arguments. -/
def Parser.djangoBlock (p : Parser) : Except ParserError Node × Parser :=
  match p.consume .LeftBracePercent with
  | (.error e, p) => (.error e, p)
  | (.ok _, p) =>
    match p.consumeUntil .PercentRightBrace with
    | (.error e, p) => (.error e, p)
    | (.ok content, p) =>
      match p.consume .PercentRightBrace with
      | (.error e, p) => (.error e, p)
      | (.ok _, p) =>
        match content with
        | [] => (.error (.NodeErr .EmptyDjangoBlock), p)
        | c0 :: restContent =>
          match newDjangoBlock c0.lexeme
              (if restContent.isEmpty then none
               else some (restContent.map tokenToString)) none with
          | .error e => (.error (.NodeErr e), p)
          | .ok n => (.ok n, p)

/-- From `Parser::django_variable` (src/src/parser.rs lines 128-134). -/
def Parser.djangoVariable (p : Parser) : Except ParserError Node × Parser :=
  match p.consume .DoubleLeftBrace with
  | (.error e, p) => (.error e, p)
  | (.ok _, p) =>
    match p.consumeUntil .DoubleRightBrace with
    | (.error e, p) => (.error e, p)
    | (.ok content, p) =>
      match newDjangoVariable (tokenVecToString content) with
      | .error e => (.error (.NodeErr e), p)
      | .ok n =>
        match p.consume .DoubleRightBrace with
        | (.error e, p) => (.error e, p)
        | (.ok _, p) => (.ok n, p)

/-- From `Parser::django_comment` (src/src/parser.rs lines 136-142). -/
def Parser.djangoComment (p : Parser) : Except ParserError Node × Parser :=
  match p.consume .LeftBraceHash with
  | (.error e, p) => (.error e, p)
  | (.ok _, p) =>
    match p.consumeUntil .HashRightBrace with
    | (.error e, p) => (.error e, p)
    | (.ok content, p) =>
      match newDjangoComment (tokenVecToString content) with
      | .error e => (.error (.NodeErr e), p)
      | .ok n =>
        match p.consume .HashRightBrace with
        | (.error e, p) => (.error e, p)
        | (.ok _, p) => (.ok n, p)

/-- From `Parser::text`: builds a `Text` node from the current token without
advancing. -/
def Parser.textNode (p : Parser) : Except ParserError Node × Parser :=
  match p.peek with
  | .error e => (.error e, p)
  | .ok t =>
    match newText t.lexeme with
    | .error e => (.error (.NodeErr e), p)
    | .ok n => (.ok n, p)

/-- The dispatch `match` of `Parser::next_node` (src/src/parser.rs lines
26-42).  The outer `Except` layer models the `?` on the `peek_next` lookup
inside the `<` arm, which returns from `next_node` before its trailing
advance; every other outcome — including an `Err` produced by a production or
by a no-match arm — becomes the `node` value, paired with the parser state the
production left behind. -/
def Parser.nextNodeDispatch (p : Parser) (t : Token) :
    Except ParserError (Except ParserError Node × Parser) :=
  match t.token_type with
  | .LeftAngle =>
    match p.peekNext with
    | .error e => .error e
    | .ok nt =>
      match nt.token_type with
      | .Bang => .ok p.htmlDoctype
      | .Text => .ok p.htmlTag
      | _ => .ok (.error (.UnexpectedToken nt), p)
  | .LeftAngleBangDashDash => .ok p.htmlComment
  | .LeftBracePercent => .ok p.djangoBlock
  | .DoubleLeftBrace => .ok p.djangoVariable
  | .LeftBraceHash => .ok p.djangoComment
  | .Text => .ok p.textNode
  | .Eof => .ok (.error .AtEndOfStream, p)
  | _ => .ok (.error (.UnexpectedToken t), p)

/-- From `Parser::next_node` (src/src/parser.rs lines 24-45): peek, dispatch,
then — whatever `node` value the dispatch produced — unconditionally advance
once more (`self.advance()?`) and only then return `node`. -/
def Parser.nextNode (p : Parser) : Except ParserError Node × Parser :=
  match p.peek with
  | .error e => (.error e, p)
  | .ok t =>
    match p.nextNodeDispatch t with
    | .error e => (.error e, p)
    | .ok (noderes, p1) =>
      match p1.advance with
      | (.error e, p2) => (.error e, p2)
      | (.ok _, p2) => (noderes, p2)

/-- The loop of `Parser::parse`, on fuel (every successful `next_node` moves
the cursor forward, so the zero-fuel case is unreachable at fuel
`tokens.length + 1`). -/
def Parser.parseAux : Nat → Parser → List Node → Except ParserError (List Node) × Parser
  | 0, p, acc => (.ok acc, p)
  | fuel + 1, p, acc =>
    if p.isAtEnd then (.ok acc, p)
    else
      match p.nextNode with
      | (.error e, p') => (.error e, p')
      | (.ok n, p') => Parser.parseAux fuel p' (acc ++ [n])

/-- From `Parser::parse` (src/src/parser.rs lines 15-22). -/
def Parser.parse (p : Parser) : Except ParserError Ast × Parser :=
  match Parser.parseAux (p.tokens.length + 1) p [] with
  | (.ok ns, p') => (.ok ⟨ns⟩, p')
  | (.error e, p') => (.error e, p')

/-- Run the parser from the start of a token stream (`Parser::new` followed by
`parse`), keeping only the result. -/
def parseTokens (ts : List Token) : Except ParserError Ast :=
  (Parser.parse ⟨ts, 0⟩).fst

/-- The full pipeline of src/src/lib.rs: tokenize, then parse the resulting
stream. -/
def pipeline (source : List Char) : LexResult (Except ParserError Ast) :=
  match tokenize source with
  | .ok ts => .ok (parseTokens ts)
  | .err e => .err e
  | .diverge => .diverge

mutual

/-- Non-emptiness of every element tag and template-block name in a node,
recursively through children. -/
def namesNonempty : Node → Bool
  | .HTMLElement tag _ children => !tag.isEmpty && namesNonemptyList children
  | .HTMLVoidElement tag _ => !tag.isEmpty
  | .DjangoBlock name _ children => !name.isEmpty && namesNonemptyList children
  | _ => true

/-- Non-emptiness of names in every node of a list. -/
def namesNonemptyList : List Node → Bool
  | [] => true
  | n :: ns => namesNonempty n && namesNonemptyList ns

end

/-- C1: the claim says `add_token` drops every `Whitespace`-kind token, so no
tokenize result contains one.  In the code, `TokenStream::add_token` pushes
unconditionally (src/src/token.rs lines 321-323) and `Token::is_throwaway` —
whose only purpose is to identify `Whitespace` tokens as disposable — is never
called, so tokenizing the one-space source yields a stream that does contain a
`Whitespace` token (which the claimed throwaway test recognizes as such). -/
theorem c1_tokenize_keeps_whitespace :
    tokenize [' '] =
      .ok [⟨.Whitespace, [' '], 1⟩, ⟨.Eof, [], 1⟩] ∧
    ([(⟨.Whitespace, [' '], 1⟩ : Token), ⟨.Eof, [], 1⟩].any
      fun t => t.is_throwaway) = true := by
  constructor
  · rfl
  · rfl

/-- C2: the claim says the pipeline maps the three template sources to a
variable, block and comment node.  In the code, whitespace tokens reach the
parser (see C1) and `next_node` advances once more after each production
(src/src/parser.rs line 43), so the pipeline fails with `AtEndOfStream` on all
three sources instead of producing any node. -/
theorem c2_pipeline_fails_on_template_constructs :
    pipeline ['{', '{', ' ', 'n', 'a', 'm', 'e', ' ', '}', '}'] =
      .ok (.error .AtEndOfStream) ∧
    pipeline ['{', '%', ' ', 'i', 'f', ' ', 'x', ' ', '%', '}'] =
      .ok (.error .AtEndOfStream) ∧
    pipeline ['{', '#', ' ', 'n', 'o', 't', 'e', ' ', '#', '}'] =
      .ok (.error .AtEndOfStream) := by
  refine ⟨rfl, rfl, rfl⟩

/-- C3: the claim says a stream holding exactly one well-formed construct and
the terminal `Eof` parses to the one corresponding node.  On the claim's own
example stream the code returns `Err(AtEndOfStream)`: `html_tag` consumes
exactly `<`, `p`, `>` (its own unit test asserts the cursor then rests on
`Eof`), but `next_node` then unconditionally advances once more, which fails
at the end of the stream. -/
theorem c3_parse_fails_on_single_element :
    parseTokens [⟨.LeftAngle, ['<'], 1⟩, ⟨.Text, ['p'], 1⟩,
      ⟨.RightAngle, ['>'], 1⟩, ⟨.Eof, [], 1⟩] = .error .AtEndOfStream := by
  rfl

/-- C4 counterexample: the claim says a `Text` run ends at the first character
of the punctuation boundary set, so scanning the word-then-bang source yields
a `Text` token without the bang plus a separate `Bang` token.  The scanner's
`extract_lexeme` actually ends a `Text` run only at whitespace (or NUL), so
the whole source becomes one `Text` token whose lexeme contains the boundary
character. -/
theorem c4_text_run_crosses_boundary_chars :
    tokenize ['w', 'o', 'r', 'l', 'd', '!'] =
      .ok [⟨.Text, ['w', 'o', 'r', 'l', 'd', '!'], 1⟩, ⟨.Eof, [], 1⟩] ∧
    '!' ∈ ['w', 'o', 'r', 'l', 'd', '!'] := by
  refine ⟨rfl, by decide⟩

/-- C6 counterexample: the claim says every single-character delimiter in the
boundary set — explicitly including the semicolon — scans to a token of the
corresponding punctuation kind.  `TokenType` has no semicolon kind at all, and
`next_token` has no arm for the semicolon, so it falls through to the `Text`
rule. -/
theorem c6_semicolon_scans_as_text :
    tokenize [';'] = .ok [⟨.Text, [';'], 1⟩, ⟨.Eof, [], 1⟩] ∧
    tokenize ['('] = .ok [⟨.Text, ['('], 1⟩, ⟨.Eof, [], 1⟩] ∧
    tokenize ['*'] = .ok [⟨.Text, ['*'], 1⟩, ⟨.Eof, [], 1⟩] := by
  refine ⟨rfl, rfl, rfl⟩

/-- C6 amended: scanning a one-character source yields exactly one token plus
the terminal `Eof`, with the lexeme equal to the character; the kind is the
corresponding punctuation kind for comma, dot, plus, colon, pipe, the two
quotes, dash, slash, percent, bang, equal and the two angle brackets, while
semicolon, star, parentheses, square brackets, braces and hash have no
dedicated single-character kind and scan as `Text`. -/
theorem c6_single_char_tokens_amended :
    tokenize [','] = .ok [⟨.Comma, [','], 1⟩, ⟨.Eof, [], 1⟩] ∧
    tokenize ['.'] = .ok [⟨.Dot, ['.'], 1⟩, ⟨.Eof, [], 1⟩] ∧
    tokenize ['+'] = .ok [⟨.Plus, ['+'], 1⟩, ⟨.Eof, [], 1⟩] ∧
    tokenize [':'] = .ok [⟨.Colon, [':'], 1⟩, ⟨.Eof, [], 1⟩] ∧
    tokenize ['|'] = .ok [⟨.Pipe, ['|'], 1⟩, ⟨.Eof, [], 1⟩] ∧
    tokenize [squoteChar] = .ok [⟨.SingleQuote, [squoteChar], 1⟩, ⟨.Eof, [], 1⟩] ∧
    tokenize [dquoteChar] = .ok [⟨.DoubleQuote, [dquoteChar], 1⟩, ⟨.Eof, [], 1⟩] ∧
    tokenize ['-'] = .ok [⟨.Dash, ['-'], 1⟩, ⟨.Eof, [], 1⟩] ∧
    tokenize ['/'] = .ok [⟨.Slash, ['/'], 1⟩, ⟨.Eof, [], 1⟩] ∧
    tokenize ['%'] = .ok [⟨.Percent, ['%'], 1⟩, ⟨.Eof, [], 1⟩] ∧
    tokenize ['!'] = .ok [⟨.Bang, ['!'], 1⟩, ⟨.Eof, [], 1⟩] ∧
    tokenize ['='] = .ok [⟨.Equal, ['='], 1⟩, ⟨.Eof, [], 1⟩] ∧
    tokenize ['<'] = .ok [⟨.LeftAngle, ['<'], 1⟩, ⟨.Eof, [], 1⟩] ∧
    tokenize ['>'] = .ok [⟨.RightAngle, ['>'], 1⟩, ⟨.Eof, [], 1⟩] ∧
    tokenize [';'] = .ok [⟨.Text, [';'], 1⟩, ⟨.Eof, [], 1⟩] ∧
    tokenize ['*'] = .ok [⟨.Text, ['*'], 1⟩, ⟨.Eof, [], 1⟩] ∧
    tokenize ['('] = .ok [⟨.Text, ['('], 1⟩, ⟨.Eof, [], 1⟩] ∧
    tokenize [')'] = .ok [⟨.Text, [')'], 1⟩, ⟨.Eof, [], 1⟩] ∧
    tokenize ['['] = .ok [⟨.Text, ['['], 1⟩, ⟨.Eof, [], 1⟩] ∧
    tokenize [']'] = .ok [⟨.Text, [']'], 1⟩, ⟨.Eof, [], 1⟩] ∧
    tokenize ['{'] = .ok [⟨.Text, ['{'], 1⟩, ⟨.Eof, [], 1⟩] ∧
    tokenize ['}'] = .ok [⟨.Text, ['}'], 1⟩, ⟨.Eof, [], 1⟩] ∧
    tokenize ['#'] = .ok [⟨.Text, ['#'], 1⟩, ⟨.Eof, [], 1⟩] := by
  refine ⟨rfl, rfl, rfl, rfl, rfl, rfl, rfl, rfl, rfl, rfl, rfl, rfl, rfl,
    rfl, rfl, rfl, rfl, rfl, rfl, rfl, rfl, rfl, rfl⟩

/-- C7 counterexample: the claim says a carriage-return/newline pair in one
whitespace run increments the line counter by exactly one.  `Token::lines`
counts every newline and every carriage return in the lexeme, so the pair
increments the counter by two: after scanning it, the next token sits on line
3, not line 2. -/
theorem c7_crlf_counts_two_lines :
    tokenize ['a', Char.ofNat 13, Char.ofNat 10, 'b'] =
      .ok [⟨.Text, ['a'], 1⟩,
        ⟨.Whitespace, [Char.ofNat 13, Char.ofNat 10], 1⟩,
        ⟨.Text, ['b'], 3⟩, ⟨.Eof, [], 3⟩] := by
  rfl

/-- C7 amended: scanning the three-line source does assign lines 1, 2 and 3 to
the three letters, but each of the carriage return and the newline of a CRLF
pair increments the line counter, so the pair counts two increments, not
one. -/
theorem c7_line_tracking_amended :
    tokenize ['a', Char.ofNat 10, 'b', Char.ofNat 10, 'c'] =
      .ok [⟨.Text, ['a'], 1⟩, ⟨.Whitespace, [Char.ofNat 10], 1⟩,
        ⟨.Text, ['b'], 2⟩, ⟨.Whitespace, [Char.ofNat 10], 2⟩,
        ⟨.Text, ['c'], 3⟩, ⟨.Eof, [], 3⟩] ∧
    tokenize ['a', Char.ofNat 13, Char.ofNat 10, 'b'] =
      .ok [⟨.Text, ['a'], 1⟩,
        ⟨.Whitespace, [Char.ofNat 13, Char.ofNat 10], 1⟩,
        ⟨.Text, ['b'], 3⟩, ⟨.Eof, [], 3⟩] := by
  refine ⟨rfl, rfl⟩

/-- C8 counterexample: the claim says the incomplete opener `<`, `!`, `-`
falls back to a plain `LeftAngle` token followed by text.  In the scanner,
`left_angle` falls back to the `Text` rule when the character after `<` is
`!` without a full `!--` following (the `LeftAngle` arm requires whitespace,
a letter or end of input there), so the whole source scans as one `Text`
token — not a `LeftAngle` token. -/
theorem c8_incomplete_comment_is_text :
    tokenize ['<', '!', '-'] =
      .ok [⟨.Text, ['<', '!', '-'], 1⟩, ⟨.Eof, [], 1⟩] := by
  rfl

/-- C8 amended: the double brace scans as one `DoubleLeftBrace` token and the
full comment opener as one `LeftAngleBangDashDash` token; the incomplete
opener does not fail, but it scans as a single `Text` token covering the whole
run rather than as a `LeftAngle` token followed by text. -/
theorem c8_compound_delimiters_amended :
    tokenize ['{', '{'] =
      .ok [⟨.DoubleLeftBrace, ['{', '{'], 1⟩, ⟨.Eof, [], 1⟩] ∧
    tokenize ['<', '!', '-', '-'] =
      .ok [⟨.LeftAngleBangDashDash, ['<', '!', '-', '-'], 1⟩, ⟨.Eof, [], 1⟩] ∧
    tokenize ['<', '!', '-'] =
      .ok [⟨.Text, ['<', '!', '-'], 1⟩, ⟨.Eof, [], 1⟩] := by
  refine ⟨rfl, rfl, rfl⟩

/-- C10: tokenizing the empty source succeeds with exactly the `Eof` token at
line 1 (in particular it is not the `EmptySource` error), and parsing that
stream succeeds with an empty AST. -/
theorem c10_empty_source_ok :
    tokenize [] = .ok [⟨.Eof, [], 1⟩] ∧
    tokenize [] ≠ .err .EmptySource ∧
    parseTokens [⟨.Eof, [], 1⟩] = .ok ⟨[]⟩ := by
  refine ⟨rfl, by decide, rfl⟩

theorem lexSingleChar_ne_eof (c : Char) (line : Nat) (tt : TokenType)
    (h : lexSingleChar c line = .ok tt) : tt ≠ .Eof := by
  unfold lexSingleChar at h
  repeat' split at h
  all_goals first
    | (injection h with hh; subst hh; decide)
    | simp at h

theorem lexLeftBrace_ne_eof (rest : List Char) (tt : TokenType)
    (h : lexLeftBrace rest = .ok tt) : tt ≠ .Eof := by
  unfold lexLeftBrace at h
  repeat' split at h
  all_goals injection h with hh; subst hh; decide

theorem lexRightBrace_ne_eof (rest : List Char) (tt : TokenType)
    (h : lexRightBrace rest = .ok tt) : tt ≠ .Eof := by
  unfold lexRightBrace at h
  repeat' split at h
  all_goals injection h with hh; subst hh; decide

theorem lexPercent_ne_eof (rest : List Char) (tt : TokenType)
    (h : lexPercent rest = .ok tt) : tt ≠ .Eof := by
  unfold lexPercent at h
  repeat' split at h
  all_goals injection h with hh; subst hh; decide

theorem lexHash_ne_eof (rest : List Char) (tt : TokenType)
    (h : lexHash rest = .ok tt) : tt ≠ .Eof := by
  unfold lexHash at h
  repeat' split at h
  all_goals injection h with hh; subst hh; decide

theorem lexBang_ne_eof (rest : List Char) (tt : TokenType)
    (h : lexBang rest = .ok tt) : tt ≠ .Eof := by
  unfold lexBang at h
  repeat' split at h
  all_goals injection h with hh; subst hh; decide

theorem lexEqual_ne_eof (rest : List Char) (tt : TokenType)
    (h : lexEqual rest = .ok tt) : tt ≠ .Eof := by
  unfold lexEqual at h
  repeat' split at h
  all_goals injection h with hh; subst hh; decide

theorem lexLeftAngle_ne_eof (rest : List Char) (tt : TokenType)
    (h : lexLeftAngle rest = .ok tt) : tt ≠ .Eof := by
  unfold lexLeftAngle at h
  repeat' split at h
  all_goals injection h with hh; subst hh; decide

theorem lexRightAngle_ne_eof (rest : List Char) (tt : TokenType)
    (h : lexRightAngle rest = .ok tt) : tt ≠ .Eof := by
  unfold lexRightAngle at h
  repeat' split at h
  all_goals injection h with hh; subst hh; decide

theorem lexSlash_ne_eof (rest : List Char) (tt : TokenType)
    (h : lexSlash rest = .ok tt) : tt ≠ .Eof := by
  unfold lexSlash at h
  repeat' split at h
  all_goals injection h with hh; subst hh; decide

theorem lexDash_ne_eof (rest : List Char) (tt : TokenType)
    (h : lexDash rest = .ok tt) : tt ≠ .Eof := by
  unfold lexDash at h
  repeat' split at h
  all_goals injection h with hh; subst hh; decide

theorem lexStar_ne_eof (rest : List Char) (tt : TokenType)
    (h : lexStar rest = .ok tt) : tt ≠ .Eof := by
  unfold lexStar at h
  repeat' split at h
  all_goals injection h with hh; subst hh; decide

/-- No dispatch branch of the scanner ever classifies a character as the
terminal `Eof` kind: the `Eof` token enters a stream only through
`finalize`. -/
theorem nextTokenType_ne_eof (rest : List Char) (line : Nat) (tt : TokenType)
    (h : nextTokenType rest line = .ok tt) : tt ≠ .Eof := by
  unfold nextTokenType at h
  by_cases h1 : (charAt rest 0 = ',' ∨ charAt rest 0 = '.' ∨ charAt rest 0 = '+' ∨
      charAt rest 0 = ':' ∨ charAt rest 0 = '|' ∨ charAt rest 0 = squoteChar ∨
      charAt rest 0 = dquoteChar)
  · rw [if_pos h1] at h
    exact lexSingleChar_ne_eof _ _ _ h
  · rw [if_neg h1] at h
    by_cases h2 : charAt rest 0 = '{'
    · rw [if_pos h2] at h
      exact lexLeftBrace_ne_eof _ _ h
    · rw [if_neg h2] at h
      by_cases h3 : charAt rest 0 = '}'
      · rw [if_pos h3] at h
        exact lexRightBrace_ne_eof _ _ h
      · rw [if_neg h3] at h
        by_cases h4 : charAt rest 0 = '%'
        · rw [if_pos h4] at h
          exact lexPercent_ne_eof _ _ h
        · rw [if_neg h4] at h
          by_cases h5 : charAt rest 0 = '#'
          · rw [if_pos h5] at h
            exact lexHash_ne_eof _ _ h
          · rw [if_neg h5] at h
            by_cases h6 : charAt rest 0 = '!'
            · rw [if_pos h6] at h
              exact lexBang_ne_eof _ _ h
            · rw [if_neg h6] at h
              by_cases h7 : charAt rest 0 = '='
              · rw [if_pos h7] at h
                exact lexEqual_ne_eof _ _ h
              · rw [if_neg h7] at h
                by_cases h8 : charAt rest 0 = '<'
                · rw [if_pos h8] at h
                  exact lexLeftAngle_ne_eof _ _ h
                · rw [if_neg h8] at h
                  by_cases h9 : charAt rest 0 = '>'
                  · rw [if_pos h9] at h
                    exact lexRightAngle_ne_eof _ _ h
                  · rw [if_neg h9] at h
                    by_cases h10 : charAt rest 0 = '/'
                    · rw [if_pos h10] at h
                      exact lexSlash_ne_eof _ _ h
                    · rw [if_neg h10] at h
                      by_cases h11 : charAt rest 0 = '-'
                      · rw [if_pos h11] at h
                        exact lexDash_ne_eof _ _ h
                      · rw [if_neg h11] at h
                        by_cases h12 : charAt rest 0 = '*'
                        · rw [if_pos h12] at h
                          exact lexStar_ne_eof _ _ h
                        · rw [if_neg h12] at h
                          by_cases h13 : isWhitespaceChar (charAt rest 0) = true
                          · rw [if_pos h13] at h
                            injection h with hh
                            subst hh
                            decide
                          · rw [if_neg h13] at h
                            injection h with hh
                            subst hh
                            decide

/-- A successfully scanned token has the kind the dispatch chose, carries the
current line, and its lexeme is whatever `extract_lexeme` produced. -/
theorem nextToken_ok_shape (rest : List Char) (line : Nat) (tok : Token)
    (h : nextToken rest line = .ok tok) :
    ∃ tt lex, nextTokenType rest line = .ok tt ∧
      extractLexeme rest tt = .ok lex ∧ tok = ⟨tt, lex, line⟩ := by
  unfold nextToken at h
  split at h
  next e heq => simp at h
  next tt heq =>
    split at h
    next e heq2 => simp at h
    next lex heq2 =>
      simp at h
      exact ⟨tt, lex, heq, heq2, h.symm⟩

/-- A successfully scanned token never has the `Eof` kind. -/
theorem nextToken_ne_eof (rest : List Char) (line : Nat) (tok : Token)
    (h : nextToken rest line = .ok tok) : tok.token_type ≠ .Eof := by
  obtain ⟨tt, lex, hNT, _, rfl⟩ := nextToken_ok_shape rest line tok h
  exact nextTokenType_ne_eof rest line tt hNT

/-- A successfully scanned `Text` token's lexeme is exactly the maximal run of
non-whitespace, non-NUL characters at the cursor. -/
theorem nextToken_text_lexeme (rest : List Char) (line : Nat) (tok : Token)
    (h : nextToken rest line = .ok tok) (htt : tok.token_type = .Text) :
    tok.lexeme = rest.takeWhile fun c => !isWhitespaceChar c && c != nulChar := by
  obtain ⟨tt, lex, _, hEL, rfl⟩ := nextToken_ok_shape rest line tok h
  simp only at htt
  subst htt
  simp [extractLexeme, sizeFixed] at hEL
  simp [hEL.symm]

/-- The characters kept by `takeWhile` all satisfy the predicate. -/
theorem takeWhile_all_pred {α : Type} (p : α → Bool) (l : List α) :
    (l.takeWhile p).all p = true := by
  induction l with
  | nil => rfl
  | cons a l ih =>
    rw [List.takeWhile_cons]
    split
    · simp_all
    · rfl

/-- Whatever stream the tokenize loop completes, it is the accumulated tokens
followed by the single final `Eof` token, and (given that no accumulated token
is `Eof`-kind) no token before the last is `Eof`-kind. -/
theorem tokenizeLoop_eof_shape (fuel : Nat) :
    ∀ rest line acc ts ln,
      tokenizeLoop fuel rest line acc = .ok (ts, ln) →
      (∀ t ∈ acc, t.token_type ≠ .Eof) →
      ∃ body, ts = body ++ [Token.eof ln] ∧ ∀ t ∈ body, t.token_type ≠ .Eof := by
  induction fuel with
  | zero =>
    intro rest line acc ts ln h _
    simp [tokenizeLoop] at h
  | succ fuel ih =>
    intro rest line acc ts ln h hacc
    unfold tokenizeLoop at h
    split at h
    · injection h with hh
      injection hh with h1 h2
      subst h1
      subst h2
      exact ⟨acc, rfl, hacc⟩
    · split at h
      next e heq => simp at h
      next tok heq =>
        refine ih _ _ _ _ _ h ?_
        intro t ht
        rcases List.mem_append.mp ht with hl | hr
        · exact hacc t hl
        · rw [List.mem_singleton.mp hr]
          exact nextToken_ne_eof _ _ _ heq

/-- Every `Text`-kind token in a completed stream has a lexeme free of
whitespace and NUL characters (given the same of the accumulated tokens). -/
theorem tokenizeLoop_text_ws (fuel : Nat) :
    ∀ rest line acc ts ln,
      tokenizeLoop fuel rest line acc = .ok (ts, ln) →
      (∀ t ∈ acc, t.token_type = .Text →
        (t.lexeme.all fun c => !isWhitespaceChar c && c != nulChar) = true) →
      ∀ t ∈ ts, t.token_type = .Text →
        (t.lexeme.all fun c => !isWhitespaceChar c && c != nulChar) = true := by
  induction fuel with
  | zero =>
    intro rest line acc ts ln h _
    simp [tokenizeLoop] at h
  | succ fuel ih =>
    intro rest line acc ts ln h hacc
    unfold tokenizeLoop at h
    split at h
    · injection h with hh
      injection hh with h1 h2
      subst h1
      intro t ht htt
      rcases List.mem_append.mp ht with hl | hr
      · exact hacc t hl htt
      · rw [List.mem_singleton.mp hr] at htt
        simp [Token.eof] at htt
    · split at h
      next e heq => simp at h
      next tok heq =>
        refine ih _ _ _ _ _ h ?_
        intro t ht htt
        rcases List.mem_append.mp ht with hl | hr
        · exact hacc t hl htt
        · rw [List.mem_singleton.mp hr] at htt ⊢
          rw [nextToken_text_lexeme _ _ _ heq htt]
          exact takeWhile_all_pred _ _

/-- A successful `tokenize` comes from a successful `tokenizeFull` with some
final line. -/
theorem tokenize_ok_full (s : List Char) (ts : List Token)
    (h : tokenize s = .ok ts) : ∃ ln, tokenizeFull s = .ok (ts, ln) := by
  unfold tokenize at h
  split at h
  next ts' ln' heq =>
    injection h with hh
    subst hh
    exact ⟨ln', heq⟩
  next e heq => simp at h
  next heq => simp at h

/-- C4 amended: for every source on which `tokenize` succeeds, every
`Text`-kind token in the stream has a lexeme containing no whitespace
character (and no NUL): a `Text` run ends at the first whitespace character or
end of input, not at the punctuation boundary set of the claim. -/
theorem c4_text_lexeme_no_whitespace (s : List Char) (ts : List Token)
    (h : tokenize s = .ok ts) (t : Token) (ht : t ∈ ts)
    (htt : t.token_type = .Text) :
    (t.lexeme.all fun c => !isWhitespaceChar c && c != nulChar) = true := by
  obtain ⟨ln, hfull⟩ := tokenize_ok_full s ts h
  exact tokenizeLoop_text_ws (s.length + 1) s 1 [] ts ln hfull (by simp) t ht htt

/-- Witness for C4 at the source of the claim's example: the single `Text`
token scanned from the word-and-bang source has a whitespace-free lexeme. -/
theorem c4_text_lexeme_no_whitespace_witness :
    ((⟨.Text, ['w', 'o', 'r', 'l', 'd', '!'], 1⟩ : Token).lexeme.all
      fun c => !isWhitespaceChar c && c != nulChar) = true :=
  c4_text_lexeme_no_whitespace ['w', 'o', 'r', 'l', 'd', '!']
    [⟨.Text, ['w', 'o', 'r', 'l', 'd', '!'], 1⟩, Token.eof 1] rfl
    ⟨.Text, ['w', 'o', 'r', 'l', 'd', '!'], 1⟩ (List.Mem.head _) rfl

/-- C5: whenever `tokenize` succeeds, the stream is non-empty, ends with the
`Eof` token stamped with the scanner's final line number, and no token before
the last has the `Eof` kind (exactly one `Eof` in the stream). -/
theorem c5_stream_ends_with_single_eof (s : List Char) (ts : List Token)
    (ln : Nat) (h : tokenizeFull s = .ok (ts, ln)) :
    tokenize s = .ok ts ∧ ts ≠ [] ∧
    ∃ body, ts = body ++ [Token.eof ln] ∧ ∀ t ∈ body, t.token_type ≠ .Eof := by
  have hshape := tokenizeLoop_eof_shape (s.length + 1) s 1 [] ts ln h (by simp)
  refine ⟨?_, ?_, hshape⟩
  · simp [tokenize, h]
  · obtain ⟨body, hb, _⟩ := hshape
    simp [hb]

/-- Witness for C5 at a one-letter source: the stream tokenize returns is the
`Text` token followed by the final `Eof` token. -/
theorem c5_stream_ends_with_single_eof_witness :
    tokenize ['a'] = .ok [⟨.Text, ['a'], 1⟩, Token.eof 1] :=
  (c5_stream_ends_with_single_eof ['a'] [⟨.Text, ['a'], 1⟩, Token.eof 1] 1
    rfl).1

theorem newHtmlElement_names (tag : List Char)
    (attrs : Option (List (List Char × AttributeValue))) (n : Node)
    (h : newHtmlElement tag attrs none = .ok n) : namesNonempty n = true := by
  unfold newHtmlElement at h
  split at h
  · simp at h
  · injection h with hh
    subst hh
    simp_all [namesNonempty, namesNonemptyList]

theorem newHtmlVoidElement_names (tag : List Char)
    (attrs : Option (List (List Char × AttributeValue))) (n : Node)
    (h : newHtmlVoidElement tag attrs = .ok n) : namesNonempty n = true := by
  unfold newHtmlVoidElement at h
  split at h
  · simp at h
  · injection h with hh
    subst hh
    simp_all [namesNonempty]

theorem newDjangoBlock_names (name : List Char)
    (args : Option (List (List Char))) (n : Node)
    (h : newDjangoBlock name args none = .ok n) : namesNonempty n = true := by
  unfold newDjangoBlock at h
  split at h
  · simp at h
  · injection h with hh
    subst hh
    simp_all [namesNonempty, namesNonemptyList]

theorem newHtmlComment_names (x : List Char) (n : Node)
    (h : newHtmlComment x = .ok n) : namesNonempty n = true := by
  injection h with hh
  subst hh
  simp [namesNonempty]

theorem newHtmlDoctype_names (x : List Char) (n : Node)
    (h : newHtmlDoctype x = .ok n) : namesNonempty n = true := by
  injection h with hh
  subst hh
  simp [namesNonempty]

theorem newDjangoVariable_names (x : List Char) (n : Node)
    (h : newDjangoVariable x = .ok n) : namesNonempty n = true := by
  injection h with hh
  subst hh
  simp [namesNonempty]

theorem newDjangoComment_names (x : List Char) (n : Node)
    (h : newDjangoComment x = .ok n) : namesNonempty n = true := by
  injection h with hh
  subst hh
  simp [namesNonempty]

theorem newText_names (x : List Char) (n : Node)
    (h : newText x = .ok n) : namesNonempty n = true := by
  injection h with hh
  subst hh
  simp [namesNonempty]

/-- Every node `html_tag` returns satisfies the name invariant: the tag was
checked non-empty by the node constructor and the children list is empty. -/
theorem htmlTag_names (p p' : Parser) (n : Node)
    (h : p.htmlTag = (.ok n, p')) : namesNonempty n = true := by
  unfold Parser.htmlTag at h
  repeat' split at h
  all_goals injection h with h1 h2
  all_goals try simp at h1
  all_goals subst h1
  all_goals first
    | exact newHtmlVoidElement_names _ _ _ (by assumption)
    | exact newHtmlElement_names _ _ _ (by assumption)

/-- Every node `html_comment` returns satisfies the name invariant. -/
theorem htmlComment_names (p p' : Parser) (n : Node)
    (h : p.htmlComment = (.ok n, p')) : namesNonempty n = true := by
  unfold Parser.htmlComment at h
  repeat' split at h
  all_goals injection h with h1 h2
  all_goals try simp at h1
  all_goals subst h1
  all_goals exact newHtmlComment_names _ _ (by assumption)

/-- Every node `html_doctype` returns satisfies the name invariant. -/
theorem htmlDoctype_names (p p' : Parser) (n : Node)
    (h : p.htmlDoctype = (.ok n, p')) : namesNonempty n = true := by
  unfold Parser.htmlDoctype at h
  repeat' split at h
  all_goals injection h with h1 h2
  all_goals try simp at h1
  all_goals subst h1
  all_goals exact newHtmlDoctype_names _ _ (by assumption)

/-- Every node `django_block` returns satisfies the name invariant: the name
was checked non-empty by the node constructor and the children list is
empty. -/
theorem djangoBlock_names (p p' : Parser) (n : Node)
    (h : p.djangoBlock = (.ok n, p')) : namesNonempty n = true := by
  unfold Parser.djangoBlock at h
  repeat' split at h
  all_goals injection h with h1 h2
  all_goals try simp at h1
  all_goals subst h1
  all_goals exact newDjangoBlock_names _ _ _ (by assumption)

/-- Every node `django_variable` returns satisfies the name invariant. -/
theorem djangoVariable_names (p p' : Parser) (n : Node)
    (h : p.djangoVariable = (.ok n, p')) : namesNonempty n = true := by
  unfold Parser.djangoVariable at h
  repeat' split at h
  all_goals injection h with h1 h2
  all_goals try simp at h1
  all_goals subst h1
  all_goals exact newDjangoVariable_names _ _ (by assumption)

/-- Every node `django_comment` returns satisfies the name invariant. -/
theorem djangoComment_names (p p' : Parser) (n : Node)
    (h : p.djangoComment = (.ok n, p')) : namesNonempty n = true := by
  unfold Parser.djangoComment at h
  repeat' split at h
  all_goals injection h with h1 h2
  all_goals try simp at h1
  all_goals subst h1
  all_goals exact newDjangoComment_names _ _ (by assumption)

/-- Every node `text` returns satisfies the name invariant. -/
theorem textNode_names (p p' : Parser) (n : Node)
    (h : p.textNode = (.ok n, p')) : namesNonempty n = true := by
  unfold Parser.textNode at h
  repeat' split at h
  all_goals injection h with h1 h2
  all_goals try simp at h1
  all_goals subst h1
  all_goals exact newText_names _ _ (by assumption)

/-- Every node value carried inside a successful dispatch result satisfies the
name invariant. -/
theorem nextNodeDispatch_names (p : Parser) (t : Token) (noderes : Except ParserError Node)
    (p1 : Parser) (n : Node) (hd : p.nextNodeDispatch t = .ok (noderes, p1))
    (hn : noderes = .ok n) : namesNonempty n = true := by
  unfold Parser.nextNodeDispatch at hd
  subst hn
  repeat' split at hd
  all_goals first
    | (injection hd; done)
    | (injection hd with hh;
       first
       | exact htmlDoctype_names _ _ _ hh
       | exact htmlTag_names _ _ _ hh
       | exact htmlComment_names _ _ _ hh
       | exact djangoBlock_names _ _ _ hh
       | exact djangoVariable_names _ _ _ hh
       | exact djangoComment_names _ _ _ hh
       | exact textNode_names _ _ _ hh
       | (injection hh with hA hB; injection hA; done))

/-- Every node `next_node` returns satisfies the name invariant. -/
theorem nextNode_names (p p' : Parser) (n : Node)
    (h : p.nextNode = (.ok n, p')) : namesNonempty n = true := by
  unfold Parser.nextNode at h
  split at h
  next e heq => simp at h
  next t heq =>
    split at h
    next e heq2 => simp at h
    next noderes p1 heq2 =>
      split at h
      next e p2 heq3 => simp at h
      next tok p2 heq3 =>
        injection h with h1 h2
        exact nextNodeDispatch_names p t noderes p1 n heq2 h1

/-- The name invariant over a list is preserved by appending a node that
satisfies it. -/
theorem namesNonemptyList_append (l : List Node) (n : Node) :
    namesNonemptyList (l ++ [n]) = (namesNonemptyList l && namesNonempty n) := by
  induction l with
  | nil => simp [namesNonemptyList]
  | cons a l ih => simp [namesNonemptyList, ih, Bool.and_assoc]

/-- Every list of nodes the parse loop completes satisfies the name invariant,
given that the accumulated nodes do. -/
theorem parseAux_names (fuel : Nat) :
    ∀ p acc ns p', Parser.parseAux fuel p acc = (.ok ns, p') →
      namesNonemptyList acc = true → namesNonemptyList ns = true := by
  induction fuel with
  | zero =>
    intro p acc ns p' h hacc
    unfold Parser.parseAux at h
    injection h with h1 h2
    injection h1 with h1
    subst h1
    exact hacc
  | succ fuel ih =>
    intro p acc ns p' h hacc
    unfold Parser.parseAux at h
    split at h
    · injection h with h1 h2
      injection h1 with h1
      subst h1
      exact hacc
    · split at h
      next e pX heq => simp at h
      next n pX heq =>
        refine ih _ _ _ _ h ?_
        rw [namesNonemptyList_append, hacc, nextNode_names _ _ _ heq]
        rfl

/-- C9: constructing an element with an empty tag or a template block with an
empty name always fails with the corresponding error (no default name is
substituted), and consequently every AST a successful parse returns satisfies
the name invariant: every element tag and every template-block name in it
(recursively through children) is non-empty. -/
theorem c9_empty_names_rejected :
    newHtmlElement [] none none = .error .NoTagName ∧
    newDjangoBlock [] none none = .error .NoBlockName ∧
    ∀ ts ast, parseTokens ts = .ok ast → namesNonemptyList ast.nodes = true := by
  refine ⟨rfl, rfl, ?_⟩
  intro ts ast h
  unfold parseTokens Parser.parse at h
  split at h
  next ns pX heq =>
    injection h with h1
    subst h1
    exact parseAux_names _ _ _ _ _ heq rfl
  next e pX heq => simp at h

/-- Witness for C9 at a concrete stream: the AST parsed from a single `Text`
token satisfies the name invariant. -/
theorem c9_empty_names_rejected_witness :
    namesNonemptyList (Ast.mk [Node.Text ['H', 'i']]).nodes = true :=
  c9_empty_names_rejected.2.2 [⟨.Text, ['H', 'i'], 1⟩, Token.eof 1]
    ⟨[Node.Text ['H', 'i']]⟩ rfl
